import Mathlib

/-!
Shallow embedding of `src/validate_pipeline.py` (a pre-flight environment
checker).  The script owns a `PipelineValidator` with two mutable logs
(`errors`, `warnings`), runs seven check routines against the OS
(filesystem stat, `docker` subprocesses, TCP connects, a DNS lookup),
prints a report and exits 0 iff no error was recorded.

The OS is modelled by an `Env` record holding the outcome of every
external call a run performs.  Each check routine is translated line by
line into a state-passing function on `VState`; `check_kafka_connectivity`
returns `Except` because its `try` block catches only `socket.gaierror`,
so any other exception escapes the routine.
-/

namespace ValidatePipeline

/-- Outcome of `sock.connect_ex(('localhost', port))`: either it returns an
errno (`0` on success) or the attempt raises an exception (e.g. a timeout). -/
inductive ConnectOutcome where
  | ret (code : Int)
  | exn (msg : String)
deriving DecidableEq

/-- Outcome of `socket.gethostbyname(host)`: resolution succeeds, raises
`socket.gaierror`, or raises some other exception (carried as a message). -/
inductive DnsOutcome where
  | resolved
  | gaierror
  | otherExn (msg : String)
deriving DecidableEq

/-- The environment a run observes: one field per external call of the
script.  `Except.error e` models the call raising an exception `e`;
`Except.ok` carries the value the Python code reads from the call
(`stdout` for `docker ps`, the returncode for the other subprocesses). -/
structure Env where
  /-- `os.path.exists path` (never raises). -/
  pathExists : String → Bool
  /-- stdout of the `docker ps` name-listing command, or an exception. -/
  dockerPs : Except String String
  /-- returncode of `docker exec spark-master ping -c 1 ci-vertica-db`. -/
  dockerPing : Except String Int
  /-- `connect_ex` outcome per port. -/
  connectEx : Nat → ConnectOutcome
  /-- returncode of the `vsql` probe inside `ci-vertica-db`. -/
  vsql : Except String Int
  /-- the DNS lookup of the Kafka bootstrap host. -/
  dns : DnsOutcome

/-- `PipelineValidator` state plus the lines printed so far.  `successes`
records the messages passed to `log_success` (the source only prints them;
we keep them to count successes). -/
structure VState where
  errors : List String
  warnings : List String
  successes : List String
  output : List String
deriving DecidableEq

/-- `print(line)` -/
def VState.print (v : VState) (line : String) : VState :=
  { v with output := v.output ++ [line] }

/-- `log_error`: append to `errors` and print with the error marker. -/
def VState.log_error (v : VState) (m : String) : VState :=
  { v with errors := v.errors ++ [m], output := v.output ++ ["❌ ERROR: " ++ m] }

/-- `log_warning`: append to `warnings` and print with the warning marker. -/
def VState.log_warning (v : VState) (m : String) : VState :=
  { v with warnings := v.warnings ++ [m], output := v.output ++ ["⚠️  WARNING: " ++ m] }

/-- `log_success`: print with the success marker (recorded in `successes`). -/
def VState.log_success (v : VState) (m : String) : VState :=
  { v with successes := v.successes ++ [m], output := v.output ++ ["✅ " ++ m] }

/-- The three hardcoded directory paths. -/
def required_dirs : List String :=
  ["/home/homar/spark-kafka-stream/data_lake",
   "/home/homar/spark-kafka-stream/checkpoints",
   "/home/homar/spark-kafka-stream/scripts"]

/-- `check_directories` -/
def check_directories (env : Env) (v : VState) : VState :=
  let v := v.print "\n📁 Checking directories..."
  required_dirs.foldl
    (fun v d =>
      if env.pathExists d then v.log_success ("Directory exists: " ++ d)
      else v.log_error ("Directory missing: " ++ d)) v

/-- The four hardcoded container names. -/
def required_containers : List String :=
  ["spark-master", "ci-vertica-db", "dbeaver-client", "pg-db"]

/-- Python `str.strip()`: drop whitespace from both ends. -/
def pyStrip (s : List Char) : List Char :=
  ((s.dropWhile Char.isWhitespace).reverse.dropWhile Char.isWhitespace).reverse

/-- Python `str.split(sep)` for a one-character separator: splitting the
empty string yields `[""]`, and every separator occurrence delimits a
(possibly empty) field. -/
def pySplit (sep : Char) : List Char → List (List Char)
  | [] => [[]]
  | c :: cs =>
    match pySplit sep cs with
    | [] => [[c]]
    | h :: t => if c = sep then [] :: h :: t else (c :: h) :: t

/-- `result.stdout.strip().split('\n')` -/
def runningNames (stdout : String) : List String :=
  (pySplit '\n' (pyStrip stdout.data)).map String.mk

/-- The `for container in required_containers` loop body, folded. -/
def containersLoop (running : List String) (cs : List String) (v : VState) : VState :=
  cs.foldl
    (fun v c =>
      if running.contains c then v.log_success ("Container running: " ++ c)
      else v.log_error ("Container not running: " ++ c)) v

/-- `check_docker_containers` -/
def check_docker_containers (env : Env) (v : VState) : VState :=
  let v := v.print "\n🐳 Checking Docker containers..."
  match env.dockerPs with
  | Except.ok stdout => containersLoop (runningNames stdout) required_containers v
  | Except.error e => v.log_error ("Failed to check Docker containers: " ++ e)

/-- `check_network_connectivity` -/
def check_network_connectivity (env : Env) (v : VState) : VState :=
  let v := v.print "\n🌐 Checking network connectivity..."
  match env.dockerPing with
  | Except.ok rc =>
      if rc = 0 then v.log_success "Spark can reach Vertica container"
      else v.log_error "Spark cannot reach Vertica container"
  | Except.error e => v.log_error ("Failed to test network connectivity: " ++ e)

/-- The five hardcoded (port, service) pairs. -/
def ports_to_check : List (Nat × String) :=
  [(8888, "Jupyter"), (8978, "DBeaver"), (15433, "Vertica"),
   (5445, "PostgreSQL"), (4040, "Spark UI")]

/-- One iteration of the `check_ports` loop.  The `Bool` component records
whether `sock.close()` ran; the source closes the socket in a `finally`
block, so it is `true` on every branch (success, non-zero errno, exception). -/
def check_one_port (env : Env) (port : Nat) (service : String) (v : VState) :
    VState × Bool :=
  match env.connectEx port with
  | ConnectOutcome.ret code =>
      if code = 0 then
        (v.log_success (service ++ " accessible on port " ++ toString port), true)
      else
        (v.log_warning (service ++ " not accessible on port " ++ toString port), true)
  | ConnectOutcome.exn e =>
      (v.log_warning ("Failed to check " ++ service ++ " on port " ++
        toString port ++ ": " ++ e), true)

/-- `check_ports` -/
def check_ports (env : Env) (v : VState) : VState :=
  let v := v.print "\n🔌 Checking port accessibility..."
  ports_to_check.foldl (fun v ps => (check_one_port env ps.1 ps.2 v).1) v

/-- `check_vertica_status` -/
def check_vertica_status (env : Env) (v : VState) : VState :=
  let v := v.print "\n🗄️  Checking Vertica database..."
  match env.vsql with
  | Except.ok rc =>
      if rc = 0 then v.log_success "Vertica database is ready"
      else v.log_warning "Vertica database might still be initializing"
  | Except.error e => v.log_warning ("Could not check Vertica status: " ++ e)

/-- The hardcoded Kafka bootstrap address. -/
def kafka_server : String :=
  "strimzi-kafka-cluster-oci-preprod-kafka-bootstrap.strimzi-kafka-preprod:9092"

/-- `kafka_server.split(':')[0]`, the hostname handed to the DNS lookup. -/
def kafka_host : String := (kafka_server.splitOn ":").headD ""

/-- `check_kafka_connectivity`.  The `try` block catches only
`socket.gaierror`; any other exception raised by `gethostbyname`
propagates, modelled by `Except.error`. -/
def check_kafka_connectivity (env : Env) (v : VState) : Except String VState :=
  let v := v.print "\n📡 Checking Kafka connectivity..."
  match env.dns with
  | DnsOutcome.resolved => Except.ok (v.log_success "Kafka hostname can be resolved")
  | DnsOutcome.gaierror =>
      Except.ok (v.log_warning "Cannot resolve Kafka hostname - ensure VPN is connected")
  | DnsOutcome.otherExn e => Except.error e

/-- The hardcoded notebook path. -/
def notebook_path : String :=
  "/home/homar/spark-kafka-stream/scripts/realtime_sms_pipeline.ipynb"

/-- `check_notebook_files` -/
def check_notebook_files (env : Env) (v : VState) : VState :=
  let v := v.print "\n📋 Checking notebook files..."
  if env.pathExists notebook_path then
    v.log_success "Pipeline notebook found in scripts directory"
  else
    v.log_error "Pipeline notebook not found in scripts directory"

/-- `"   • " + entry`, the bullet used for every reported log entry. -/
def bulletLine (m : String) : String := "   • " ++ m

/-- The two banner lines printed when both logs are empty. -/
def bannerLines : List String :=
  ["🎉 ALL CHECKS PASSED!", "🚀 Your pipeline is ready for testing!"]

/-- `"=" * 60` -/
def eqRule : String := String.mk (List.replicate 60 '=')

/-- The three header lines of the report. -/
def reportHeader : List String := ["\n" ++ eqRule, "📊 VALIDATION REPORT", eqRule]

/-- The `if self.warnings:` block of `generate_report`. -/
def warnSection (w : List String) : List String :=
  if w = [] then []
  else ("\n⚠️  WARNINGS (" ++ toString w.length ++ "):") :: w.map bulletLine

/-- The `if self.errors:` block of `generate_report`. -/
def errSection (e : List String) : List String :=
  if e = [] then []
  else (("\n❌ ERRORS (" ++ toString e.length ++ "):") :: e.map bulletLine) ++
    ["\n🔧 Please fix the errors before running the pipeline"]

/-- The next-steps list printed when no error was recorded. -/
def nextStepsReady : List String :=
  ["1. Ensure VPN connection to Unifonic Kafka",
   "2. Open Jupyter: http://localhost:8888",
   "3. Run the realtime_sms_pipeline.ipynb notebook",
   "4. Monitor results in DBeaver: http://localhost:8978"]

/-- The next-steps list printed when at least one error was recorded. -/
def nextStepsFix : List String :=
  ["1. Fix the errors listed above",
   "2. Run this validation script again",
   "3. Ensure all Docker containers are running"]

/-- All lines `generate_report` prints, in source order: header, the
all-passed banner (only when both logs are empty), the warnings block,
the errors block, then one of the two next-steps lists. -/
def reportLines (e w : List String) : List String :=
  reportHeader ++
  (if e = [] ∧ w = [] then bannerLines else []) ++
  warnSection w ++
  errSection e ++
  ["\n📋 Next Steps:"] ++
  (if e = [] then nextStepsReady else nextStepsFix)

/-- `generate_report`: prints the report and returns `len(self.errors) == 0`. -/
def generate_report (v : VState) : VState × Bool :=
  ({ v with output := v.output ++ reportLines v.errors v.warnings },
   v.errors.length == 0)

/-- The seven checks of `main`, in source order, on a fresh validator.
`Except.error` is a run killed by an exception escaping
`check_kafka_connectivity`; the `datetime.now()` banner print only affects
stdout text and is not modelled. -/
def runChecks (env : Env) : Except String VState :=
  let v := VState.mk [] [] [] []
  let v := v.print "🔍 Real-Time SMS Pipeline Validation"
  let v := v.print (String.mk (List.replicate 36 '='))
  let v := check_directories env v
  let v := check_docker_containers env v
  let v := check_network_connectivity env v
  let v := check_ports env v
  let v := check_vertica_status env v
  match check_kafka_connectivity env v with
  | Except.error e => Except.error e
  | Except.ok v => Except.ok (check_notebook_files env v)

/-- `main`: the checks, the report, and the exit code
(`sys.exit(0 if success else 1)`). -/
def main (env : Env) : Except String (VState × Nat) :=
  match runChecks env with
  | Except.error e => Except.error e
  | Except.ok v =>
      let r := generate_report v
      Except.ok (r.1, if r.2 then 0 else 1)

/-- Errors, warnings and exit code of a run (stdout text projected away). -/
def runOutcome (env : Env) : Except String (List String × List String × Nat) :=
  (main env).map (fun p => (p.1.errors, p.1.warnings, p.2))

/-- The warnings-block header line. -/
def warnHdr (w : List String) : String :=
  "\n⚠️  WARNINGS (" ++ toString w.length ++ "):"

/-- The errors-block header line. -/
def errHdr (e : List String) : String :=
  "\n❌ ERRORS (" ++ toString e.length ++ "):"

/-- The fix-the-errors line closing the errors block. -/
def fixLine : String := "\n🔧 Please fix the errors before running the pipeline"

/-- `connect_ex` to a port fails: it returns a non-zero errno (connection
refused, timed out, ...) or the attempt raises. -/
def portFails (env : Env) (p : Nat) : Prop :=
  (∃ c, env.connectEx p = ConnectOutcome.ret c ∧ c ≠ 0) ∨
  (∃ e, env.connectEx p = ConnectOutcome.exn e)

/-- The empty validator state (`PipelineValidator()`). -/
def v0 : VState := VState.mk [] [] [] []

/-- An environment where every external call succeeds. -/
def okEnv : Env where
  pathExists := fun _ => true
  dockerPs := Except.ok "spark-master\nci-vertica-db\ndbeaver-client\npg-db\n"
  dockerPing := Except.ok 0
  connectEx := fun _ => ConnectOutcome.ret 0
  vsql := Except.ok 0
  dns := DnsOutcome.resolved

/-- An environment where every external call raises an exception; in
particular the DNS lookup raises something other than `socket.gaierror`. -/
def exnEnv : Env where
  pathExists := fun _ => false
  dockerPs := Except.error "a"
  dockerPing := Except.error "b"
  connectEx := fun _ => ConnectOutcome.exn "c"
  vsql := Except.error "d"
  dns := DnsOutcome.otherExn "boom"

/-- Port 8888 accepts; every other port refuses with errno 111. -/
def portsEnv : Env where
  pathExists := fun _ => true
  dockerPs := Except.ok ""
  dockerPing := Except.ok 0
  connectEx := fun p => if p = 8888 then ConnectOutcome.ret 0 else ConnectOutcome.ret 111
  vsql := Except.ok 0
  dns := DnsOutcome.resolved

/-- `docker ps` succeeds and lists exactly `spark-master` and `pg-db`. -/
def twoNamesEnv : Env where
  pathExists := fun _ => true
  dockerPs := Except.ok "spark-master\npg-db\n"
  dockerPing := Except.ok 0
  connectEx := fun _ => ConnectOutcome.ret 0
  vsql := Except.ok 0
  dns := DnsOutcome.resolved

/-- `docker ps` completes without raising but with empty output. -/
def emptyPsEnv : Env where
  pathExists := fun _ => true
  dockerPs := Except.ok ""
  dockerPing := Except.ok 0
  connectEx := fun _ => ConnectOutcome.ret 0
  vsql := Except.ok 0
  dns := DnsOutcome.resolved

/-- The final state of the all-green run. -/
def okV : VState :=
  match main okEnv with
  | Except.ok p => p.1
  | Except.error _ => v0

/-- The exit code of the all-green run. -/
def okCode : Nat :=
  match main okEnv with
  | Except.ok p => p.2
  | Except.error _ => 7

/-! ## Helper lemmas -/

theorem string_data_append (s t : String) : (s ++ t).data = s.data ++ t.data := by
  cases s; cases t; rfl

theorem string_ne_of_head (s t : String) (a b : Char)
    (hs : s.data.head? = some a) (ht : t.data.head? = some b) (hab : a ≠ b) :
    s ≠ t := by
  intro h
  subst h
  rw [hs] at ht
  exact hab (Option.some.inj ht)

theorem bulletLine_head (x : String) : (bulletLine x).data.head? = some ' ' := by
  show (("   • " : String) ++ x).data.head? = some ' '
  rw [string_data_append,
    show ("   • " : String).data = ' ' :: "  • ".data by decide]
  rfl

theorem warnHdr_head (w : List String) : (warnHdr w).data.head? = some '\n' := by
  show ((("\n⚠️  WARNINGS (" : String) ++ toString w.length) ++ "):").data.head? =
    some '\n'
  rw [string_data_append, string_data_append,
    show ("\n⚠️  WARNINGS (" : String).data = '\n' :: "⚠️  WARNINGS (".data by decide]
  rfl

theorem errHdr_head (e : List String) : (errHdr e).data.head? = some '\n' := by
  show ((("\n❌ ERRORS (" : String) ++ toString e.length) ++ "):").data.head? =
    some '\n'
  rw [string_data_append, string_data_append,
    show ("\n❌ ERRORS (" : String).data = '\n' :: "❌ ERRORS (".data by decide]
  rfl

theorem warnSection_eq (w : List String) :
    warnSection w = (if w = [] then [] else [warnHdr w]) ++ w.map bulletLine := by
  by_cases h : w = [] <;> simp [warnSection, warnHdr, h]

theorem errSection_eq (e : List String) :
    errSection e = (if e = [] then [] else [errHdr e]) ++ e.map bulletLine ++
      (if e = [] then [] else [fixLine]) := by
  by_cases h : e = [] <;> simp [errSection, errHdr, fixLine, h]

theorem containersLoop_spec (running cs : List String) (v : VState) :
    (containersLoop running cs v).errors =
      v.errors ++ (cs.filter (fun c => !running.contains c)).map
        (fun c => "Container not running: " ++ c) ∧
    (containersLoop running cs v).successes =
      v.successes ++ (cs.filter (fun c => running.contains c)).map
        (fun c => "Container running: " ++ c) ∧
    (containersLoop running cs v).warnings = v.warnings := by
  induction cs generalizing v with
  | nil => simp [containersLoop]
  | cons c cs ih =>
    have hunfold : containersLoop running (c :: cs) v =
        containersLoop running cs
          (if running.contains c then v.log_success ("Container running: " ++ c)
           else v.log_error ("Container not running: " ++ c)) := rfl
    rw [hunfold]
    by_cases h : running.contains c
    · have h' : c ∈ running := by simpa using h
      rw [if_pos h]
      obtain ⟨he, hs, hw⟩ := ih (v.log_success ("Container running: " ++ c))
      rw [he, hs, hw]
      refine ⟨?_, ?_, ?_⟩ <;>
        simp [VState.log_success, List.filter_cons, h, h']
    · have h' : ¬ c ∈ running := by simpa using h
      rw [if_neg h]
      obtain ⟨he, hs, hw⟩ := ih (v.log_error ("Container not running: " ++ c))
      rw [he, hs, hw]
      refine ⟨?_, ?_, ?_⟩ <;>
        simp [VState.log_error, List.filter_cons, h, h']

theorem check_docker_ok_spec (env : Env) (v : VState) (out : String)
    (hout : env.dockerPs = Except.ok out) :
    (check_docker_containers env v).errors =
      v.errors ++ (required_containers.filter
        (fun c => !(runningNames out).contains c)).map
        (fun c => "Container not running: " ++ c) ∧
    (check_docker_containers env v).successes =
      v.successes ++ (required_containers.filter
        (fun c => (runningNames out).contains c)).map
        (fun c => "Container running: " ++ c) := by
  have h1 : check_docker_containers env v =
      containersLoop (runningNames out) required_containers
        (v.print "\n🐳 Checking Docker containers...") := by
    simp [check_docker_containers, hout]
  obtain ⟨he, hs, _⟩ := containersLoop_spec (runningNames out) required_containers
    (v.print "\n🐳 Checking Docker containers...")
  rw [h1, he, hs]
  exact ⟨rfl, rfl⟩

theorem check_one_port_ok_state (env : Env) (p : Nat) (s : String) (v : VState)
    (h : env.connectEx p = ConnectOutcome.ret 0) :
    (check_one_port env p s v).1 =
      v.log_success (s ++ " accessible on port " ++ toString p) := by
  simp [check_one_port, h]

theorem check_one_port_fail_state (env : Env) (p : Nat) (s : String)
    (h : portFails env p) :
    ∃ m, ∀ v : VState, (check_one_port env p s v).1 = v.log_warning m := by
  rcases h with ⟨c, hc, hne⟩ | ⟨e, he⟩
  · exact ⟨s ++ " not accessible on port " ++ toString p,
      fun v => by simp [check_one_port, hc, hne]⟩
  · exact ⟨"Failed to check " ++ s ++ " on port " ++ toString p ++ ": " ++ e,
      fun v => by simp [check_one_port, he]⟩

theorem banner_ne_bullet (x : String) :
    "🎉 ALL CHECKS PASSED!" ≠ bulletLine x :=
  string_ne_of_head _ _ '🎉' ' ' (by decide) (bulletLine_head x) (by decide)

theorem banner_ne_warnHdr (w : List String) :
    "🎉 ALL CHECKS PASSED!" ≠ warnHdr w :=
  string_ne_of_head _ _ '🎉' '\n' (by decide) (warnHdr_head w) (by decide)

theorem banner_ne_errHdr (e : List String) :
    "🎉 ALL CHECKS PASSED!" ≠ errHdr e :=
  string_ne_of_head _ _ '🎉' '\n' (by decide) (errHdr_head e) (by decide)

theorem banner_notMem_warnSection (w : List String) :
    "🎉 ALL CHECKS PASSED!" ∉ warnSection w := by
  rw [warnSection_eq]
  intro hm
  rcases List.mem_append.mp hm with hm | hm
  · by_cases hw : w = []
    · simp [hw] at hm
    · rw [if_neg hw] at hm
      exact banner_ne_warnHdr w (List.mem_singleton.mp hm)
  · obtain ⟨x, _, hbe⟩ := List.mem_map.mp hm
    exact banner_ne_bullet x hbe.symm

theorem banner_notMem_errSection (e : List String) :
    "🎉 ALL CHECKS PASSED!" ∉ errSection e := by
  rw [errSection_eq]
  intro hm
  rcases List.mem_append.mp hm with hm | hm
  · rcases List.mem_append.mp hm with hm | hm
    · by_cases hee : e = []
      · simp [hee] at hm
      · rw [if_neg hee] at hm
        exact banner_ne_errHdr e (List.mem_singleton.mp hm)
    · obtain ⟨x, _, hbe⟩ := List.mem_map.mp hm
      exact banner_ne_bullet x hbe.symm
  · by_cases hee : e = []
    · simp [hee] at hm
    · rw [if_neg hee] at hm
      exact absurd (List.mem_singleton.mp hm) (by decide)

/-! ## Claim theorems -/

/-- C3: `generate_report` returns `true` iff the errors list is empty, for
every possible content of the warnings list: it returns `false` whenever at
least one error is recorded, regardless of warnings, and `true` when there
are only warnings. -/
theorem generate_report_true_iff_no_errors (v : VState) :
    ((generate_report v).2 = true ↔ v.errors = []) ∧
    (∀ w, (generate_report { v with warnings := w }).2 = (generate_report v).2) := by
  refine ⟨?_, fun w => rfl⟩
  show (v.errors.length == 0) = true ↔ _
  simp [List.length_eq_zero]

/-- C9: `generate_report` does not modify either log: the errors list and
the warnings list after the call equal their values before it. -/
theorem generate_report_preserves_logs (v : VState) :
    (generate_report v).1.errors = v.errors ∧
    (generate_report v).1.warnings = v.warnings :=
  ⟨rfl, rfl⟩

/-- C7: in `check_ports` the socket for each port is closed on every exit
path — successful connect, non-zero errno (refused / timed out), or an
exception during the connect attempt (`sock.close()` sits in a `finally`
block). -/
theorem socket_closed_all_paths (env : Env) (p : Nat) (s : String) (v : VState) :
    (check_one_port env p s v).2 = true := by
  unfold check_one_port
  cases env.connectEx p with
  | ret code => by_cases h : code = 0 <;> simp [h]
  | exn e => rfl

/-- C2: whenever `main` completes (no exception escapes the checks), the
exit code is 0 iff the error log is empty at report time, and 1 iff it is
not; the code is a function of the errors list alone, so warnings never
affect it. -/
theorem exit_code_iff_no_errors (env : Env) (v : VState) (code : Nat)
    (h : main env = Except.ok (v, code)) :
    (code = 0 ↔ v.errors = []) ∧ (code = 1 ↔ v.errors ≠ []) := by
  unfold main at h
  cases hr : runChecks env with
  | error e => rw [hr] at h; exact absurd h (by simp)
  | ok w =>
    rw [hr] at h
    simp only [Except.ok.injEq, Prod.mk.injEq] at h
    obtain ⟨hv, hc⟩ := h
    subst hv
    subst hc
    have h2 : (generate_report w).2 = (w.errors.length == 0) := rfl
    have h1 : (generate_report w).1.errors = w.errors := rfl
    rw [h2, h1]
    cases he : w.errors with
    | nil => simp [he]
    | cons x xs => simp [he]

/-- C2 witness: a concrete all-green run exits with code 0. -/
theorem exit_code_iff_no_errors_witness :
    (okCode = 0 ↔ okV.errors = []) ∧ (okCode = 1 ↔ okV.errors ≠ []) :=
  exit_code_iff_no_errors okEnv okV okCode rfl

/-- C8: the run is deterministic in the environment: two executions against
identical environment outcomes (same filesystem answers, same subprocess
results, same socket and DNS outcomes) produce identical errors lists,
identical warnings lists, and the same exit code. -/
theorem run_deterministic (env1 env2 : Env)
    (hfs : env1.pathExists = env2.pathExists)
    (hps : env1.dockerPs = env2.dockerPs)
    (hping : env1.dockerPing = env2.dockerPing)
    (hconn : env1.connectEx = env2.connectEx)
    (hvsql : env1.vsql = env2.vsql)
    (hdns : env1.dns = env2.dns) :
    runOutcome env1 = runOutcome env2 := by
  have h : env1 = env2 := by cases env1; cases env2; simp_all
  rw [h]

/-- C8 witness: two runs against the all-green environment agree. -/
theorem run_deterministic_witness : runOutcome okEnv = runOutcome okEnv :=
  run_deterministic okEnv okEnv rfl rfl rfl rfl rfl rfl

/-- C1 counterexample: `check_kafka_connectivity` catches only
`socket.gaierror`; in an environment whose DNS lookup raises any other
exception the exception propagates out of the routine instead of being
converted into a logged message. -/
theorem kafka_dns_exception_propagates :
    check_kafka_connectivity exnEnv v0 = Except.error "boom" := rfl

/-- C1 (amended): the subprocess- and socket-based routines convert any
exception from their OS call into a logged message of their assigned
severity, but `check_kafka_connectivity` catches only `socket.gaierror`:
a gaierror becomes a warning, while any other exception from the DNS
lookup propagates out of the routine. -/
theorem per_routine_exception_policy (env : Env) (v : VState) :
    (∀ e, env.dockerPs = Except.error e →
      (check_docker_containers env v).errors =
        v.errors ++ ["Failed to check Docker containers: " ++ e]) ∧
    (∀ e, env.dockerPing = Except.error e →
      (check_network_connectivity env v).errors =
        v.errors ++ ["Failed to test network connectivity: " ++ e]) ∧
    (∀ p s e, env.connectEx p = ConnectOutcome.exn e →
      (check_one_port env p s v).1.warnings =
        v.warnings ++
          ["Failed to check " ++ s ++ " on port " ++ toString p ++ ": " ++ e]) ∧
    (∀ e, env.vsql = Except.error e →
      (check_vertica_status env v).warnings =
        v.warnings ++ ["Could not check Vertica status: " ++ e]) ∧
    (env.dns = DnsOutcome.gaierror →
      ∃ v2, check_kafka_connectivity env v = Except.ok v2 ∧
        v2.warnings = v.warnings ++
          ["Cannot resolve Kafka hostname - ensure VPN is connected"] ∧
        v2.errors = v.errors) ∧
    (∀ e, env.dns = DnsOutcome.otherExn e →
      check_kafka_connectivity env v = Except.error e) := by
  refine ⟨?_, ?_, ?_, ?_, ?_, ?_⟩
  · intro e he
    simp [check_docker_containers, he, VState.print, VState.log_error]
  · intro e he
    simp [check_network_connectivity, he, VState.print, VState.log_error]
  · intro p s e he
    simp [check_one_port, he, VState.log_warning]
  · intro e he
    simp [check_vertica_status, he, VState.print, VState.log_warning]
  · intro h
    refine ⟨(v.print "\n📡 Checking Kafka connectivity...").log_warning
      "Cannot resolve Kafka hostname - ensure VPN is connected", ?_, ?_, rfl⟩
    · simp [check_kafka_connectivity, h]
    · simp [VState.print, VState.log_warning]
  · intro e he
    simp [check_kafka_connectivity, he]

/-- C1 witness: in the all-raising environment, the container check logs an
error, the Vertica check logs a warning, and only the Kafka routine lets
its (non-gaierror) exception escape. -/
theorem per_routine_exception_policy_witness :
    (check_docker_containers exnEnv v0).errors =
      v0.errors ++ ["Failed to check Docker containers: a"] ∧
    (check_vertica_status exnEnv v0).warnings =
      v0.warnings ++ ["Could not check Vertica status: d"] ∧
    check_kafka_connectivity exnEnv v0 = Except.error "boom" :=
  ⟨(per_routine_exception_policy exnEnv v0).1 "a" rfl,
   (per_routine_exception_policy exnEnv v0).2.2.2.1 "d" rfl,
   (per_routine_exception_policy exnEnv v0).2.2.2.2.2 "boom" rfl⟩

/-- C4: `generate_report` prints the all-passed banner exactly when both
logs are empty; its output decomposes as header, banner, all warnings
(bulleted, in order), then all errors, then a next-steps list chosen solely
by whether the errors list is non-empty. -/
theorem report_layout (v : VState) :
    (generate_report v).1.output = v.output ++ reportLines v.errors v.warnings ∧
    ("🎉 ALL CHECKS PASSED!" ∈ reportLines v.errors v.warnings ↔
      v.errors = [] ∧ v.warnings = []) ∧
    reportLines v.errors v.warnings =
      (reportHeader ++
        (if v.errors = [] ∧ v.warnings = [] then bannerLines else []) ++
        (if v.warnings = [] then [] else [warnHdr v.warnings])) ++
      v.warnings.map bulletLine ++
      ((if v.errors = [] then [] else [errHdr v.errors]) ++
        v.errors.map bulletLine ++
        ((if v.errors = [] then [] else [fixLine]) ++ ["\n📋 Next Steps:"])) ++
      (if v.errors = [] then nextStepsReady else nextStepsFix) := by
  refine ⟨rfl, ⟨?_, ?_⟩, ?_⟩
  · intro hm
    by_contra hne
    unfold reportLines at hm
    rw [if_neg hne] at hm
    simp only [List.append_nil, List.nil_append, List.mem_append] at hm
    rcases hm with ((((hm | hm) | hm) | hm) | hm)
    · exact absurd hm (by decide)
    · exact banner_notMem_warnSection v.warnings hm
    · exact banner_notMem_errSection v.errors hm
    · exact absurd hm (by decide)
    · by_cases he : v.errors = []
      · rw [if_pos he] at hm
        exact absurd hm (by decide)
      · rw [if_neg he] at hm
        exact absurd hm (by decide)
  · rintro ⟨he, hw⟩
    rw [reportLines, he, hw]
    decide
  · rw [reportLines, warnSection_eq, errSection_eq]
    simp only [List.append_assoc]

/-- C5: when the connect to port 8888 succeeds and the connects to ports
8978, 15433, 5445 and 4040 all fail (non-zero errno or exception),
`check_ports` logs exactly one success, appends exactly four warnings, and
appends no error. -/
theorem ports_one_open_four_closed (env : Env) (v : VState)
    (h0 : env.connectEx 8888 = ConnectOutcome.ret 0)
    (h1 : portFails env 8978) (h2 : portFails env 15433)
    (h3 : portFails env 5445) (h4 : portFails env 4040) :
    (check_ports env v).successes.length = v.successes.length + 1 ∧
    (check_ports env v).warnings.length = v.warnings.length + 4 ∧
    (check_ports env v).errors = v.errors := by
  obtain ⟨m1, e1⟩ := check_one_port_fail_state env 8978 "DBeaver" h1
  obtain ⟨m2, e2⟩ := check_one_port_fail_state env 15433 "Vertica" h2
  obtain ⟨m3, e3⟩ := check_one_port_fail_state env 5445 "PostgreSQL" h3
  obtain ⟨m4, e4⟩ := check_one_port_fail_state env 4040 "Spark UI" h4
  have hunfold : check_ports env v =
      (check_one_port env 4040 "Spark UI"
        (check_one_port env 5445 "PostgreSQL"
          (check_one_port env 15433 "Vertica"
            (check_one_port env 8978 "DBeaver"
              (check_one_port env 8888 "Jupyter"
                (v.print "\n🔌 Checking port accessibility...")).1).1).1).1).1 := rfl
  rw [hunfold, check_one_port_ok_state env 8888 "Jupyter" _ h0,
    e1, e2, e3, e4]
  refine ⟨?_, ?_, ?_⟩ <;>
    simp [VState.print, VState.log_success, VState.log_warning]

/-- C5 witness: port 8888 accepts and the other four refuse with errno 111. -/
theorem ports_one_open_four_closed_witness :
    (check_ports portsEnv v0).successes.length = v0.successes.length + 1 ∧
    (check_ports portsEnv v0).warnings.length = v0.warnings.length + 4 ∧
    (check_ports portsEnv v0).errors = v0.errors :=
  ports_one_open_four_closed portsEnv v0 (by decide)
    (Or.inl ⟨111, by decide, by decide⟩) (Or.inl ⟨111, by decide, by decide⟩)
    (Or.inl ⟨111, by decide, by decide⟩) (Or.inl ⟨111, by decide, by decide⟩)

/-- C6: when `docker ps` succeeds and its output names are exactly
`spark-master` and `pg-db`, `check_docker_containers` logs exactly two
successes and appends exactly the two errors for `ci-vertica-db` and
`dbeaver-client`. -/
theorem docker_two_names (env : Env) (v : VState) (out : String)
    (hout : env.dockerPs = Except.ok out)
    (hnames : runningNames out = ["spark-master", "pg-db"]) :
    (check_docker_containers env v).successes.length = v.successes.length + 2 ∧
    (check_docker_containers env v).errors =
      v.errors ++ ["Container not running: ci-vertica-db",
                   "Container not running: dbeaver-client"] := by
  obtain ⟨he, hs⟩ := check_docker_ok_spec env v out hout
  rw [hnames] at he hs
  constructor
  · rw [hs,
      show required_containers.filter
        (fun c => (["spark-master", "pg-db"]).contains c) =
        ["spark-master", "pg-db"] by decide]
    simp
  · rw [he,
      show required_containers.filter
        (fun c => !(["spark-master", "pg-db"]).contains c) =
        ["ci-vertica-db", "dbeaver-client"] by decide]
    rfl

/-- C6 witness: concrete `docker ps` output `"spark-master\npg-db\n"`. -/
theorem docker_two_names_witness :
    (check_docker_containers twoNamesEnv v0).successes.length =
      v0.successes.length + 2 ∧
    (check_docker_containers twoNamesEnv v0).errors =
      v0.errors ++ ["Container not running: ci-vertica-db",
                    "Container not running: dbeaver-client"] :=
  docker_two_names twoNamesEnv v0 "spark-master\npg-db\n" rfl (by decide)

/-- C10: when `docker ps` completes without raising, the errors appended by
`check_docker_containers` are exactly one per required container missing
from the parsed output; with empty output that is all four
`Container not running` errors; the single `Failed to check Docker
containers` error appears only when the command raises. -/
theorem docker_empty_output_errors (env : Env) (v : VState) :
    (∀ out, env.dockerPs = Except.ok out →
      (check_docker_containers env v).errors =
        v.errors ++ (required_containers.filter
          (fun c => !(runningNames out).contains c)).map
          (fun c => "Container not running: " ++ c)) ∧
    (env.dockerPs = Except.ok "" →
      (check_docker_containers env v).errors =
        v.errors ++ required_containers.map
          (fun c => "Container not running: " ++ c)) ∧
    (∀ e, env.dockerPs = Except.error e →
      (check_docker_containers env v).errors =
        v.errors ++ ["Failed to check Docker containers: " ++ e]) := by
  refine ⟨?_, ?_, ?_⟩
  · intro out hout
    exact (check_docker_ok_spec env v out hout).1
  · intro hout
    rw [(check_docker_ok_spec env v "" hout).1,
      show (required_containers.filter
        (fun c => !(runningNames "").contains c)) = required_containers by decide]
  · intro e he
    simp [check_docker_containers, he, VState.print, VState.log_error]

/-- C10 witness: `docker ps` returns empty output; all four containers are
reported missing. -/
theorem docker_empty_output_errors_witness :
    (check_docker_containers emptyPsEnv v0).errors =
      v0.errors ++ required_containers.map
        (fun c => "Container not running: " ++ c) :=
  (docker_empty_output_errors emptyPsEnv v0).2.1 rfl

end ValidatePipeline
